import Mathlib

/-!
Shallow embedding of the failure-remediation core of
`src/self_improvement_protocol.py`: the multi-agent verification engine
(`MultiAgentVerifier`), the self-healing pattern catalog
(`SelfHealingPatterns`), the healing-pattern selector and the
failure-handling pipeline (`SelfImprovementProtocol.handle_failure`,
`MCPDebugger.debug_failure`).

Python dictionaries that the embedded code reads only through fixed keys
are modelled as structures with exactly those fields; `d.get(k, default)`
becomes an `Option` field read with `getD`.  Generated source-code text
payloads (the `additions` strings of a fix, the implementation string of a
healing pattern, the regression-test file path built from an md5 digest)
are never branched on by the embedded control flow and are abstracted
away.  Timestamps and the append-only history lists
(`verification_results`, `applied_patterns`, `fixes`) are write-only state
that no embedded computation reads back, so they are omitted.
-/

namespace SelfImprovementProtocol

/-- Python substring test `needle in hay` on strings. -/
def pyIn (needle hay : String) : Bool :=
  decide (needle.toList <:+: hay.toList)

/-- Python `str.lower()`; the strings the source lowercases are ASCII, so
per-character lowering with `Char.toLower` is faithful. -/
def lowerStr (s : String) : String :=
  String.mk (s.toList.map Char.toLower)

/-- The `FailureType` enum of the source. -/
inductive FailureType where
  | mcp_error
  | missing_tool
  | unclear_docs
  | runtime_error
  | validation_error
deriving DecidableEq, Repr

/-- The keys of `Failure.context` that the embedded code reads:
`error_type` (pattern selector), `target` (pattern application),
`traceback` (MCP-error fix paths), `tool_name` (missing-tool fix),
`section` (documentation fix, named `docSection` here).  A missing key is
`none`, matching `context.get(key, default)` in the source. -/
structure FailureContext where
  error_type : Option String := none
  target : Option String := none
  traceback : Option String := none
  tool_name : Option String := none
  docSection : Option String := none
deriving DecidableEq, Repr

/-- The `Failure` dataclass (timestamp omitted; `resolved`/`resolution`
are written by the debugger but never read by the embedded control flow). -/
structure Failure where
  type : FailureType
  description : String
  context : FailureContext
deriving DecidableEq, Repr

/-- A registered verification agent (`MultiAgentVerifier.register_agent`). -/
structure Agent where
  id : String
  capabilities : List String
  status : String := "active"
deriving DecidableEq, Repr

/-- A change descriptor passed to `verify_change`; the engine reads only
`change.get("type", "")`, modelled by the optional `type` field. -/
structure Change where
  type : Option String := none
deriving DecidableEq, Repr

/-- Python `change.get("type", "")`. -/
def Change.getType (c : Change) : String :=
  c.type.getD ""

/-- Result of one named check (`{"passed": ..., "details": ...}`). -/
structure CheckResult where
  passed : Bool
  details : String
deriving DecidableEq, Repr

/-- `MultiAgentVerifier._can_verify`: an agent can verify a change iff any
of its capability tags is a substring of the change type. -/
def canVerify (agent : Agent) (change : Change) : Bool :=
  agent.capabilities.any (fun cap => pyIn cap change.getType)

/-- `MultiAgentVerifier._determine_checks`: fixed capability-to-checks
table; the membership tests are Python list membership (exact equality). -/
def determineChecks (agent : Agent) (_change : Change) : List String :=
  (if agent.capabilities.contains "code" then ["syntax", "style", "complexity"] else []) ++
  (if agent.capabilities.contains "security" then ["vulnerabilities", "permissions"] else []) ++
  (if agent.capabilities.contains "performance" then ["efficiency", "memory_usage"] else [])

/-- A verification task (`MultiAgentVerifier._create_verification_task`). -/
structure VerificationTask where
  agent_id : String
  change : Change
  checks : List String
deriving DecidableEq, Repr

/-- `MultiAgentVerifier._create_verification_task`. -/
def createVerificationTask (agent : Agent) (change : Change) : VerificationTask :=
  { agent_id := agent.id, change := change, checks := determineChecks agent change }

/-- `MultiAgentVerifier._perform_check`: dispatch over the fixed check
table; every table entry returns `passed = True` with a fixed detail
string, and an unknown check name falls back to `_default_check`. -/
def performCheck (check_type : String) (_change : Change) : CheckResult :=
  if check_type = "syntax" then { passed := true, details := "Syntax valid" }
  else if check_type = "style" then { passed := true, details := "Style compliant" }
  else if check_type = "complexity" then { passed := true, details := "Complexity acceptable" }
  else if check_type = "vulnerabilities" then { passed := true, details := "No vulnerabilities found" }
  else if check_type = "permissions" then { passed := true, details := "Permissions appropriate" }
  else if check_type = "efficiency" then { passed := true, details := "Efficiency optimal" }
  else if check_type = "memory_usage" then { passed := true, details := "Memory usage acceptable" }
  else { passed := true, details := "Check passed" }

/-- Per-agent verification outcome; `results` is the insertion-ordered
dict of check name to result (check names produced by `determineChecks`
are distinct, so an ordered association list is faithful). -/
structure AgentResult where
  agent_id : String
  results : List (String × CheckResult)
  overall : Bool
deriving DecidableEq, Repr

/-- `MultiAgentVerifier._execute_verification`: run every check of the
task in order and conjoin the `passed` flags (`all` over the dict). -/
def executeVerification (task : VerificationTask) : AgentResult :=
  let rs := task.checks.map (fun c => (c, performCheck c task.change))
  { agent_id := task.agent_id
    results := rs
    overall := rs.all (fun p => p.2.passed) }

/-- One entry of the aggregated `issues` list. -/
structure Issue where
  agent : String
  check : String
  details : String
deriving DecidableEq, Repr

/-- The aggregated verdict returned by `verify_change`; `confidence` is
the exact rational value of the Python float expression. -/
structure Verdict where
  verified : Bool
  agent_count : Nat
  issues : List Issue
  confidence : ℚ
deriving DecidableEq, Repr

/-- `MultiAgentVerifier._aggregate_results`: `verified` is the Python
`all(...)` over per-agent `overall` flags (true on the empty list),
`issues` collects every failed check in order, and `confidence` is the
passing-agent count over the agent count, or 0 when there are no results. -/
def aggregateResults (results : List AgentResult) : Verdict :=
  { verified := results.all (fun r => r.overall)
    agent_count := results.length
    issues := results.flatMap (fun r =>
      (r.results.filter (fun p => !p.2.passed)).map (fun p =>
        { agent := r.agent_id, check := p.1, details := p.2.details }))
    confidence :=
      if results.isEmpty then 0
      else ((results.filter (fun r => r.overall)).length : ℚ) / (results.length : ℚ) }

/-- The verifier state: the list of registered agents. -/
structure Verifier where
  agents : List Agent
deriving DecidableEq, Repr

/-- The verification tasks `verify_change` builds: one per applicable
agent, in registration order. -/
def applicableTasks (v : Verifier) (change : Change) : List VerificationTask :=
  (v.agents.filter (fun a => canVerify a change)).map
    (fun a => createVerificationTask a change)

/-- `MultiAgentVerifier.verify_change`: execute every applicable task and
aggregate (the coroutines are deterministic and effect-free, so the
`asyncio.gather` is list order). -/
def verifyChange (v : Verifier) (change : Change) : Verdict :=
  aggregateResults ((applicableTasks v change).map executeVerification)

/-!
Exception-aware layer for the verification engine.  The check functions of
the source are total (every one returns `passed = True`), so to reason
about a check execution raising — the situation the spec describes — the
per-check primitive becomes a parameter returning `Except String
CheckResult`, with `.error msg` standing for a raised exception carrying
message `msg`.  The control flow is translated unchanged from the source:
neither `_execute_verification` nor `verify_change` contains a
`try`/`except`, so the `for` loop over checks and the `asyncio.gather`
both propagate the first exception.
-/

/-- The `for check in task["checks"]` loop of `_execute_verification`,
with an exception from a check propagating immediately (no handler in the
source). -/
def runChecksE (pc : String → Change → Except String CheckResult)
    (change : Change) : List String → Except String (List (String × CheckResult))
  | [] => .ok []
  | c :: cs => do
      let r ← pc c change
      let rest ← runChecksE pc change cs
      pure ((c, r) :: rest)

/-- `MultiAgentVerifier._execute_verification` with a possibly-raising
check primitive. -/
def executeVerificationE (pc : String → Change → Except String CheckResult)
    (task : VerificationTask) : Except String AgentResult := do
  let rs ← runChecksE pc task.change task.checks
  pure { agent_id := task.agent_id
         results := rs
         overall := rs.all (fun p => p.2.passed) }

/-- `MultiAgentVerifier.verify_change` with a possibly-raising check
primitive: `asyncio.gather` without `return_exceptions` re-raises the
first exception of its tasks, so an error in any task aborts the whole
call before aggregation. -/
def verifyChangeE (pc : String → Change → Except String CheckResult)
    (v : Verifier) (change : Change) : Except String Verdict := do
  let results ← (applicableTasks v change).mapM (executeVerificationE pc)
  pure (aggregateResults results)

/-- The total per-check primitive of the shipped source: every check
returns normally with `performCheck`. -/
def totalCheck (check_type : String) (change : Change) : Except String CheckResult :=
  .ok (performCheck check_type change)

/-!
Self-healing pattern catalog and selector.
-/

/-- The keys of the `SelfHealingPatterns.patterns` table, in insertion
order; the implementation each key maps to returns a generated source
text, abstracted here. -/
def patternNames : List String :=
  ["connection_retry", "circuit_breaker", "fallback",
   "cache_recovery", "rate_limiter", "health_check"]

/-- The result of `SelfHealingPatterns.apply_pattern` (the generated
implementation text and timestamp are abstracted; only the `pattern` and
`target` fields are read). -/
structure PatternApplication where
  pattern : String
  target : String
deriving DecidableEq, Repr

/-- `SelfHealingPatterns.apply_pattern`: raises `ValueError` (modelled as
`.error`) when the name is not a key of the catalog, otherwise returns
the application record with the given pattern name and target. -/
def applyPattern (pattern_name target : String) : Except String PatternApplication :=
  if patternNames.contains pattern_name then
    .ok { pattern := pattern_name, target := target }
  else
    .error ("Unknown pattern: " ++ pattern_name)

/-- The ordered `pattern_map` of
`SelfImprovementProtocol._determine_healing_pattern` (Python dicts
preserve insertion order). -/
def patternMap : List (String × String) :=
  [("connection", "connection_retry"),
   ("timeout", "circuit_breaker"),
   ("rate_limit", "rate_limiter"),
   ("service_unavailable", "fallback"),
   ("cache_miss", "cache_recovery")]

/-- The `for key, pattern in pattern_map.items()` loop: first rule whose
key is a substring of the lowered error type wins; `none` when no rule
matches. -/
def firstPattern (lowered : String) : List (String × String) → Option String
  | [] => none
  | (key, pat) :: rest =>
      if pyIn key lowered then some pat else firstPattern lowered rest

/-- `SelfImprovementProtocol._determine_healing_pattern` as a function of
the error-type string. -/
def determineHealingPatternOf (error_type : String) : Option String :=
  firstPattern (lowerStr error_type) patternMap

/-- `SelfImprovementProtocol._determine_healing_pattern`: reads
`failure.context.get("error_type", "")`. -/
def determineHealingPattern (f : Failure) : Option String :=
  determineHealingPatternOf (f.context.error_type.getD "")

/-!
Debugger (`MCPDebugger.debug_failure`).  Every fix path of the source
returns a dict whose `code_changes` value is a nonempty dict holding a
`file` name and an `additions` source-text payload; the payload is
templated text that nothing branches on and is abstracted, keeping the
`file` name.  A nonempty dict is truthy in Python, so the
`debug_result.get("code_changes")` test in `handle_failure` corresponds
to `Option.isSome` here.
-/

/-- The `code_changes` value of a fix (`additions` text abstracted). -/
structure CodeChanges where
  file : String
deriving DecidableEq, Repr

/-- A fix returned by one of the debugger paths. -/
structure DebugResult where
  issue : String
  solution : String
  code_changes : Option CodeChanges
deriving DecidableEq, Repr

/-- The last line of the traceback matching a predicate, empty string when
none matches: the `for line in error_lines` loop of
`_analyze_and_fix_error` keeps overwriting `error_type`, so the final
value is the last match. -/
def lastMatching (p : String → Bool) (lines : List String) : String :=
  lines.foldl (fun acc l => if p l then l else acc) ""

/-- `MCPDebugger._analyze_and_fix_error`. -/
def analyzeAndFixError (f : Failure) : DebugResult :=
  let stack := f.context.traceback.getD ""
  let errType := lastMatching (fun l => pyIn "Error:" l) (stack.splitOn "\n")
  { issue := if errType = "" then "Unknown error" else errType
    solution := "Applied generic error handling"
    code_changes := some { file := "error_handler.py" } }

/-- `MCPDebugger._fix_mcp_error`: branch on substrings of the lowered
traceback. -/
def fixMcpError (f : Failure) : DebugResult :=
  let tb := lowerStr (f.context.traceback.getD "")
  if pyIn "connection" tb then
    { issue := "Connection failure"
      solution := "Implemented retry logic with exponential backoff"
      code_changes := some { file := "mcp_connection.py" } }
  else if pyIn "timeout" tb then
    { issue := "Timeout error"
      solution := "Increased timeout and added configurable settings"
      code_changes := some { file := "mcp_config.py" } }
  else if pyIn "authentication" tb then
    { issue := "Authentication failure"
      solution := "Enhanced credential management and validation"
      code_changes := some { file := "mcp_auth.py" } }
  else analyzeAndFixError f

/-- `MCPDebugger._add_missing_tool`. -/
def addMissingTool (f : Failure) : DebugResult :=
  let tool_name := f.context.tool_name.getD "unknown"
  { issue := "Missing tool: " ++ tool_name
    solution := "Added " ++ tool_name ++ " to MCP"
    code_changes := some { file := "tools/" ++ tool_name ++ ".py" } }

/-- `MCPDebugger._improve_documentation`. -/
def improveDocumentation (f : Failure) : DebugResult :=
  let doc_section := f.context.docSection.getD ""
  { issue := "Unclear documentation: " ++ doc_section
    solution := "Tested and improved documentation"
    code_changes := some { file := "docs/improved_docs.md" } }

/-- `MCPDebugger._generic_fix`. -/
def genericFix (f : Failure) : DebugResult :=
  { issue := f.description
    solution := "Applied generic error handling and logging"
    code_changes := some { file := "generic_fixes.py" } }

/-- `MCPDebugger.debug_failure`: dispatch on the failure type. -/
def debugFailure (f : Failure) : DebugResult :=
  match f.type with
  | .mcp_error => fixMcpError f
  | .missing_tool => addMissingTool f
  | .unclear_docs => improveDocumentation f
  | .runtime_error => genericFix f
  | .validation_error => genericFix f

/-!
Pipeline (`SelfImprovementProtocol.handle_failure`).
-/

/-- The agents registered by
`SelfImprovementProtocol._setup_verification_agents`. -/
def defaultAgents : List Agent :=
  [{ id := "code_agent", capabilities := ["code", "syntax", "style"] },
   { id := "security_agent", capabilities := ["security", "permissions"] },
   { id := "performance_agent", capabilities := ["performance", "efficiency"] }]

/-- The protocol verifier with the three default agents. -/
def defaultVerifier : Verifier :=
  { agents := defaultAgents }

/-- The change dict `handle_failure` hands to `verify_change` is the
`code_changes` dict of the fix, whose keys are `file` and `additions`:
it has no `type` key, so `change.get("type", "")` is the empty string. -/
def CodeChanges.asChange (_cc : CodeChanges) : Change :=
  { type := none }

/-- One entry of the `steps` trace of `handle_failure`, tagged by its
`step` name and carrying the embedded part of its `result` payload (the
regression-test file path and the evaluation report are templated text
and external collaborators, abstracted). -/
inductive Step where
  | debug (result : DebugResult)
  | verify (result : Verdict)
  | regression_test
  | self_healing (result : PatternApplication)
  | evaluation
deriving DecidableEq, Repr

/-- The `step` name string of a trace entry. -/
def Step.name : Step → String
  | .debug _ => "debug"
  | .verify _ => "verify"
  | .regression_test => "regression_test"
  | .self_healing _ => "self_healing"
  | .evaluation => "evaluation"

/-- The ordered list of step names of a trace. -/
def stepNames (steps : List Step) : List String :=
  steps.map Step.name

/-- `SelfImprovementProtocol.handle_failure`: debug, verify when the fix
carries code changes, generate the regression test, apply a healing
pattern when the selector returns one, evaluate.  The uncaught
`ValueError` of `apply_pattern` is the only exception the embedded flow
can raise, modelled by the `Except` monad. -/
def handleFailure (f : Failure) : Except String (List Step) := do
  let debug_result := debugFailure f
  let steps1 : List Step := [Step.debug debug_result]
  let steps2 : List Step :=
    match debug_result.code_changes with
    | some cc => steps1 ++ [Step.verify (verifyChange defaultVerifier cc.asChange)]
    | none => steps1
  let steps3 := steps2 ++ [Step.regression_test]
  let steps4 ←
    match determineHealingPattern f with
    | some pat => do
        let healing ← applyPattern pat (f.context.target.getD "system")
        pure (steps3 ++ [Step.self_healing healing])
    | none => pure steps3
  pure (steps4 ++ [Step.evaluation])

/-!
Concrete fixtures used by counterexamples and witnesses.
-/

/-- A change descriptor of kind `code_security`. -/
def csChange : Change :=
  { type := some "code_security" }

/-- A change descriptor of kind `docs`: no default-agent capability is a
substring of `docs`, so no registered checker is applicable. -/
def docsChange : Change :=
  { type := some "docs" }

/-- A per-check primitive that raises on the `vulnerabilities` check and
behaves like the shipped `_perform_check` everywhere else. -/
def raisingCheck (check_type : String) (change : Change) : Except String CheckResult :=
  if check_type = "vulnerabilities" then .error "Simulated vulnerability scanner crash"
  else .ok (performCheck check_type change)

/-- The verification task of the security agent for `csChange`. -/
def securityTask : VerificationTask :=
  createVerificationTask { id := "security_agent", capabilities := ["security", "permissions"] } csChange

/-- An agent whose only capability is `docs`, outside the
`code`/`security`/`performance` check table. -/
def docAgent : Agent :=
  { id := "doc_agent", capabilities := ["docs"] }

/-- A verifier holding only `docAgent`. -/
def docVerifier : Verifier :=
  { agents := [docAgent] }

/-- A failure context shared by two distinct failures. -/
def sharedContext : FailureContext :=
  { error_type := some "cache_miss_on_profile" }

/-- A runtime failure with `sharedContext`. -/
def failureRuntime : Failure :=
  { type := .runtime_error, description := "runtime failure", context := sharedContext }

/-- A documentation failure with the same context as `failureRuntime`. -/
def failureDocs : Failure :=
  { type := .unclear_docs, description := "docs failure", context := sharedContext }

/-- A failure whose error type selects the `circuit_breaker` pattern. -/
def failureTimeout : Failure :=
  { type := .validation_error, description := "slow request",
    context := { error_type := some "timeout" } }

/-!
Helper lemmas shared by the claim theorems.
-/

/-- The `confidence` field of an aggregated verdict, by definition. -/
lemma aggregateResults_confidence (rs : List AgentResult) :
    (aggregateResults rs).confidence =
      if rs.isEmpty then 0
      else ((rs.filter (fun r => r.overall)).length : ℚ) / (rs.length : ℚ) := rfl

/-- The `verified` field of an aggregated verdict, by definition. -/
lemma aggregateResults_verified (rs : List AgentResult) :
    (aggregateResults rs).verified = rs.all (fun r => r.overall) := rfl

/-- The `agent_count` field of an aggregated verdict, by definition. -/
lemma aggregateResults_agent_count (rs : List AgentResult) :
    (aggregateResults rs).agent_count = rs.length := rfl

/-- `verify_change` is aggregation over the executed applicable tasks. -/
lemma verifyChange_def (v : Verifier) (c : Change) :
    verifyChange v c = aggregateResults ((applicableTasks v c).map executeVerification) := rfl

/-- When no registered agent can verify the change, no task is built. -/
lemma applicableTasks_nil (v : Verifier) (c : Change)
    (h : v.agents.all (fun a => !canVerify a c) = true) :
    applicableTasks v c = [] := by
  unfold applicableTasks
  rw [List.filter_eq_nil_iff.mpr, List.map_nil]
  intro a ha
  have := List.all_eq_true.mp h a ha
  simp_all

/-- On a nonempty result list, the aggregated `verified` flag holds
exactly when the confidence ratio is 1. -/
lemma aggregate_verified_iff (rs : List AgentResult) (h : rs ≠ []) :
    ((aggregateResults rs).verified = true ↔ (aggregateResults rs).confidence = 1) := by
  have hlen : 0 < rs.length := List.length_pos.mpr h
  have hQ : ((rs.length : ℚ)) ≠ 0 := by positivity
  have hIsE : rs.isEmpty = false := by
    cases rs with
    | nil => exact absurd rfl h
    | cons a l => rfl
  rw [aggregateResults_verified, aggregateResults_confidence, hIsE]
  simp only [Bool.false_eq_true, if_false]
  rw [div_eq_one_iff_eq hQ, Nat.cast_inj]
  constructor
  · intro hall
    rw [List.filter_eq_self.mpr]
    intro r hr
    exact List.all_eq_true.mp hall r hr
  · intro hk
    refine List.all_eq_true.mpr ?_
    have : rs.countP (fun r => r.overall) = rs.length := by
      rw [List.countP_eq_length_filter]
      exact hk
    exact List.countP_eq_length.mp this

/-- The ordered-rule loop is the first match over the rule list. -/
lemma firstPattern_eq_find (lowered : String) (rules : List (String × String)) :
    firstPattern lowered rules =
      (rules.find? (fun r => pyIn r.1 lowered)).map Prod.snd := by
  induction rules with
  | nil => rfl
  | cons r rest ih =>
      rw [firstPattern, List.find?]
      by_cases hcond : pyIn r.1 lowered = true
      · rw [hcond]
        rfl
      · rw [Bool.not_eq_true] at hcond
        rw [hcond]
        simpa using ih

/-- Every pattern name the selector can return is a catalog key. -/
lemma healingPattern_mem (f : Failure) (p : String)
    (h : determineHealingPattern f = some p) :
    patternNames.contains p = true := by
  unfold determineHealingPattern determineHealingPatternOf patternMap at h
  rw [firstPattern] at h
  split at h
  · simp only [Option.some.injEq] at h; subst h; decide
  · rw [firstPattern] at h
    split at h
    · simp only [Option.some.injEq] at h; subst h; decide
    · rw [firstPattern] at h
      split at h
      · simp only [Option.some.injEq] at h; subst h; decide
      · rw [firstPattern] at h
        split at h
        · simp only [Option.some.injEq] at h; subst h; decide
        · rw [firstPattern] at h
          split at h
          · simp only [Option.some.injEq] at h; subst h; decide
          · exact absurd h (by rw [firstPattern]; simp)

/-- Applying a catalog pattern returns normally with the given name and
target. -/
lemma applyPattern_ok (p t : String) (h : patternNames.contains p = true) :
    applyPattern p t = .ok { pattern := p, target := t } := by
  unfold applyPattern
  rw [h]
  rfl

/-- Every debugger path attaches code changes to its fix. -/
lemma debug_cc_isSome (f : Failure) : (debugFailure f).code_changes.isSome = true := by
  rcases f with ⟨t, d, ctx⟩
  cases t
  case mcp_error =>
    simp only [debugFailure, fixMcpError]
    split_ifs <;> simp [analyzeAndFixError]
  case missing_tool => rfl
  case unclear_docs => rfl
  case runtime_error => rfl
  case validation_error => rfl

/-- The shape of the step-name trace of a pipeline run: debug, verify
when the fix carries code changes, regression test, self healing when a
pattern was selected, evaluation. -/
lemma stepNames_handleFailure (f : Failure) :
    (handleFailure f).map stepNames =
      .ok ("debug" ::
        ((if (debugFailure f).code_changes.isSome then ["verify"] else []) ++
          ("regression_test" ::
            ((if (determineHealingPattern f).isSome then ["self_healing"] else []) ++
              ["evaluation"])))) := by
  obtain ⟨cc, hcc⟩ := Option.isSome_iff_exists.mp (debug_cc_isSome f)
  cases hp : determineHealingPattern f with
  | none =>
      simp [handleFailure, Except.map, Bind.bind, Except.bind, Except.pure, pure, hcc, hp,
        stepNames, Step.name]
  | some pat =>
      have hap := applyPattern_ok pat (f.context.target.getD "system")
        (healingPattern_mem f pat hp)
      simp [handleFailure, Except.map, Bind.bind, Except.bind, Except.pure, pure, hcc, hp, hap,
        stepNames, Step.name]

/-- A pipeline run never raises: the only possible exception is the
unknown-pattern error, and the selector only returns catalog keys. -/
lemma handleFailure_isOk (f : Failure) : (handleFailure f).isOk = true := by
  have h := stepNames_handleFailure f
  cases he : handleFailure f with
  | ok steps => rfl
  | error e => rw [he] at h; exact absurd h (by simp [Except.map])

/-- An agent with none of the three table capabilities is assigned no
checks, and its overall result is the empty conjunction, true. -/
lemma noCap_overall (a : Agent) (c : Change)
    (h1 : a.capabilities.contains "code" = false)
    (h2 : a.capabilities.contains "security" = false)
    (h3 : a.capabilities.contains "performance" = false) :
    determineChecks a c = [] ∧
      (executeVerification (createVerificationTask a c)).overall = true := by
  have hd : determineChecks a c = [] := by
    unfold determineChecks
    rw [h1, h2, h3]
    rfl
  refine ⟨hd, ?_⟩
  simp [executeVerification, createVerificationTask, hd]

/-- An error from the per-check primitive propagates out of the check
loop: no handler exists in `_execute_verification`. -/
lemma runChecksE_isOk_false (pc : String → Change → Except String CheckResult)
    (change : Change) (checks : List String)
    (h : ∃ ch ∈ checks, (pc ch change).isOk = false) :
    (runChecksE pc change checks).isOk = false := by
  induction checks with
  | nil => simp at h
  | cons c cs ih =>
      rw [runChecksE]
      obtain ⟨ch, hmem, hbad⟩ := h
      rcases List.mem_cons.mp hmem with hhd | htl
      · subst hhd
        cases hpc : pc ch change with
        | error e => simp [Bind.bind, Except.bind, Except.isOk, Except.toBool, hpc]
        | ok r => rw [hpc] at hbad; exact absurd hbad (by simp [Except.isOk, Except.toBool])
      · cases hpc : pc c change with
        | error e => simp [Bind.bind, Except.bind, Except.isOk, Except.toBool, hpc]
        | ok r =>
            have hrest := ih ⟨ch, htl, hbad⟩
            cases hrc : runChecksE pc change cs with
            | error e => simp [Bind.bind, Except.bind, Except.isOk, Except.toBool, hpc, hrc]
            | ok rest => rw [hrc] at hrest; exact absurd hrest (by simp [Except.isOk, Except.toBool])

/-- An error from the per-check primitive propagates out of the whole
checker execution. -/
lemma executeVerificationE_isOk_false (pc : String → Change → Except String CheckResult)
    (task : VerificationTask)
    (h : ∃ ch ∈ task.checks, (pc ch task.change).isOk = false) :
    (executeVerificationE pc task).isOk = false := by
  have hrc := runChecksE_isOk_false pc task.change task.checks h
  unfold executeVerificationE
  cases hr : runChecksE pc task.change task.checks with
  | error e => simp [Bind.bind, Except.bind, Except.isOk, Except.toBool, hr]
  | ok rest => rw [hr] at hrc; exact absurd hrc (by simp [Except.isOk, Except.toBool])

/-- An error in any task of a `mapM` makes the whole `mapM` an error. -/
lemma mapM_isOk_false {α β : Type} (f : α → Except String β) (l : List α)
    (h : ∃ x ∈ l, (f x).isOk = false) :
    (l.mapM f).isOk = false := by
  induction l with
  | nil => simp at h
  | cons a as ih =>
      rw [List.mapM_cons]
      obtain ⟨x, hmem, hbad⟩ := h
      rcases List.mem_cons.mp hmem with hhd | htl
      · subst hhd
        cases hfa : f x with
        | error e => simp [Bind.bind, Except.bind, Except.isOk, Except.toBool, hfa]
        | ok r => rw [hfa] at hbad; exact absurd hbad (by simp [Except.isOk, Except.toBool])
      · cases hfa : f a with
        | error e => simp [Bind.bind, Except.bind, Except.isOk, Except.toBool, hfa]
        | ok r =>
            have hrest := ih ⟨x, htl, hbad⟩
            cases hmm : as.mapM f with
            | error e => simp [Bind.bind, Except.bind, Except.isOk, Except.toBool, hfa, hmm]
            | ok rest => rw [hmm] at hrest; exact absurd hrest (by simp [Except.isOk, Except.toBool])

/-!
Claim theorems.
-/

/-- C1, counterexample: for the `docs` change no registered default agent
is applicable, and the returned verdict has `agent_count = 0` and
`confidence = 0` but `verified = true` — Python `all` over the empty
result list — refuting the claimed `verified = false`. -/
theorem claim1_counterexample :
    defaultVerifier.agents.all (fun a => !canVerify a docsChange) = true ∧
    (verifyChange defaultVerifier docsChange).agent_count = 0 ∧
    (verifyChange defaultVerifier docsChange).confidence = 0 ∧
    (verifyChange defaultVerifier docsChange).verified = true := by
  refine ⟨by decide, by decide, ?_, by decide⟩
  rw [verifyChange_def, applicableTasks_nil defaultVerifier docsChange (by decide)]
  rfl

/-- C1, amended: for every `verify_change` call in which no registered
checker is applicable, the verdict has `agent_count = 0`, `confidence =
0`, empty issues, and `verified = true`, because the aggregation takes
`all` of an empty sequence. -/
theorem claim1_amended (v : Verifier) (c : Change)
    (h : v.agents.all (fun a => !canVerify a c) = true) :
    verifyChange v c =
      { verified := true, agent_count := 0, issues := [], confidence := 0 } := by
  rw [verifyChange_def, applicableTasks_nil v c h]
  rfl

/-- C1, witness: the amended statement at the concrete `docs` change. -/
theorem claim1_witness :
    defaultVerifier.agents.all (fun a => !canVerify a docsChange) = true ∧
    verifyChange defaultVerifier docsChange =
      { verified := true, agent_count := 0, issues := [], confidence := 0 } :=
  ⟨by decide, claim1_amended defaultVerifier docsChange (by decide)⟩

/-- C2, counterexample: with two applicable checkers (the code and
security agents on a `code_security` change) and a per-check primitive
raising on the `vulnerabilities` check, the whole `verify_change` call
returns that error: no verdict is produced, the raising checker gets no
recorded `false`-with-detail result, and the other checker's result is
discarded rather than unaffected, refuting the claimed isolation; the
same call with the total shipped primitive returns normally. -/
theorem claim2_counterexample :
    (applicableTasks defaultVerifier csChange).length = 2 ∧
    verifyChangeE raisingCheck defaultVerifier csChange =
      .error "Simulated vulnerability scanner crash" ∧
    (verifyChangeE raisingCheck defaultVerifier csChange).isOk = false ∧
    (verifyChangeE totalCheck defaultVerifier csChange).isOk = true := by
  refine ⟨by decide, ?_, ?_, ?_⟩ <;> rfl

/-- C2, amended: an exception in a check execution propagates — neither
the check loop nor the gather has a handler — so the raising checker
yields no recorded result and the entire `verify_change` call aborts
without a verdict; the shipped check functions themselves never raise. -/
theorem claim2_amended (pc : String → Change → Except String CheckResult) :
    (∀ task : VerificationTask,
      (∃ ch ∈ task.checks, (pc ch task.change).isOk = false) →
      (executeVerificationE pc task).isOk = false) ∧
    (∀ (v : Verifier) (c : Change),
      (∃ t ∈ applicableTasks v c, (executeVerificationE pc t).isOk = false) →
      (verifyChangeE pc v c).isOk = false) := by
  refine ⟨fun task h => executeVerificationE_isOk_false pc task h, ?_⟩
  intro v c h
  unfold verifyChangeE
  have hm := mapM_isOk_false (executeVerificationE pc) (applicableTasks v c) h
  cases hmm : (applicableTasks v c).mapM (executeVerificationE pc) with
  | error e => simp [Bind.bind, Except.bind, Except.isOk, Except.toBool, hmm]
  | ok rs => rw [hmm] at hm; exact absurd hm (by simp [Except.isOk, Except.toBool])

/-- C2, witness: the amended statement at the raising primitive: the
security-agent execution errors, and then the whole call errors. -/
theorem claim2_witness :
    (executeVerificationE raisingCheck securityTask).isOk = false ∧
    (verifyChangeE raisingCheck defaultVerifier csChange).isOk = false :=
  ⟨(claim2_amended raisingCheck).1 securityTask (by decide),
   (claim2_amended raisingCheck).2 defaultVerifier csChange (by decide)⟩

/-- C3: whenever the verdict counts at least one agent, its confidence is
the number of applicable checkers whose checks all passed divided by the
agent count, and it is verified exactly when the confidence is 1. -/
theorem claim3_spec (v : Verifier) (c : Change)
    (h : 0 < (verifyChange v c).agent_count) :
    (verifyChange v c).confidence =
      ((((applicableTasks v c).map executeVerification).filter
          (fun r => r.overall)).length : ℚ) /
        ((verifyChange v c).agent_count : ℚ) ∧
    ((verifyChange v c).verified = true ↔ (verifyChange v c).confidence = 1) := by
  rw [verifyChange_def] at h ⊢
  rw [aggregateResults_agent_count] at h ⊢
  have hne : (applicableTasks v c).map executeVerification ≠ [] := by
    intro hnil
    rw [hnil] at h
    simp at h
  have hIsE : ((applicableTasks v c).map executeVerification).isEmpty = false := by
    cases hl : (applicableTasks v c).map executeVerification with
    | nil => exact absurd hl hne
    | cons a l => rfl
  refine ⟨?_, aggregate_verified_iff _ hne⟩
  rw [aggregateResults_confidence, hIsE]
  simp

/-- C3, witness: the `code_security` change has two applicable checkers
and the equivalence holds there. -/
theorem claim3_witness :
    0 < (verifyChange defaultVerifier csChange).agent_count ∧
    ((verifyChange defaultVerifier csChange).verified = true ↔
      (verifyChange defaultVerifier csChange).confidence = 1) :=
  ⟨by decide, (claim3_spec defaultVerifier csChange (by decide)).2⟩

/-- C4: the pattern selector returns the first ordered rule whose key is
a substring of the lowercased error type, `none` when no rule matches,
and in particular maps `connection_timeout` to `connection_retry` (the
`connection` rule wins over `timeout`) and `rate_limit_exceeded` to
`rate_limiter`. -/
theorem claim4_spec :
    (∀ e : String, determineHealingPatternOf e =
      (patternMap.find? (fun r => pyIn r.1 (lowerStr e))).map Prod.snd) ∧
    (∀ e : String, (∀ r ∈ patternMap, pyIn r.1 (lowerStr e) = false) →
      determineHealingPatternOf e = none) ∧
    determineHealingPatternOf "connection_timeout" = some "connection_retry" ∧
    determineHealingPatternOf "rate_limit_exceeded" = some "rate_limiter" := by
  refine ⟨fun e => firstPattern_eq_find (lowerStr e) patternMap, ?_, by decide, by decide⟩
  intro e h
  unfold determineHealingPatternOf
  rw [firstPattern_eq_find, List.find?_eq_none.mpr]
  · rfl
  · intro r hr
    simp [h r hr]

/-- C4, witness: the no-match case at `unknown_thing` together with the
priority example. -/
theorem claim4_witness :
    determineHealingPatternOf "unknown_thing" = none ∧
    determineHealingPatternOf "connection_timeout" = some "connection_retry" :=
  ⟨claim4_spec.2.1 "unknown_thing" (by decide), claim4_spec.2.2.1⟩

/-- C5: a checker is applicable exactly when one of its capability tags
is a substring of the change kind, and for the `code_security` change the
code and security agents (and no other default agent) are applicable,
giving a verdict with two agents, confidence 1, verified, no issues. -/
theorem claim5_spec :
    (∀ (a : Agent) (c : Change),
      canVerify a c = true ↔ ∃ cap ∈ a.capabilities, cap.toList <:+: c.getType.toList) ∧
    (defaultVerifier.agents.filter (fun a => canVerify a csChange)).map Agent.id =
      ["code_agent", "security_agent"] ∧
    (verifyChange defaultVerifier csChange).agent_count = 2 ∧
    (verifyChange defaultVerifier csChange).confidence = 1 ∧
    (verifyChange defaultVerifier csChange).verified = true ∧
    (verifyChange defaultVerifier csChange).issues = [] := by
  refine ⟨?_, by decide, by decide, ?_, by decide, by decide⟩
  · intro a c
    simp [canVerify, pyIn, List.any_eq_true]
  · rw [verifyChange_def, aggregateResults_confidence]
    have h1 : ((applicableTasks defaultVerifier csChange).map executeVerification).isEmpty
        = false := by decide
    have h2 : (((applicableTasks defaultVerifier csChange).map executeVerification).filter
        (fun r => r.overall)).length = 2 := by decide
    have h3 : ((applicableTasks defaultVerifier csChange).map executeVerification).length
        = 2 := by decide
    rw [h1, h2, h3]
    norm_num

/-- C6: the step names of every pipeline trace are exactly debug, then
verify precisely when the diagnosis produced code changes, then the
regression test, then self healing precisely when the selector returned a
pattern, then evaluation; with no code changes and no pattern this list
is exactly debug, regression test, evaluation.  In the embedded code
every diagnosis path attaches code changes, so the no-change case holds
vacuously through this equation. -/
theorem claim6_spec (f : Failure) :
    (handleFailure f).map stepNames =
      .ok ("debug" ::
        ((if (debugFailure f).code_changes.isSome then ["verify"] else []) ++
          ("regression_test" ::
            ((if (determineHealingPattern f).isSome then ["self_healing"] else []) ++
              ["evaluation"])))) :=
  stepNames_handleFailure f

/-- C7: `apply_pattern` raises the unknown-pattern error exactly when the
name is not one of the six catalog keys, and on a catalog key it returns
the application carrying that pattern name and target. -/
theorem claim7_spec (pattern_name target : String) :
    (applyPattern pattern_name target =
        .error ("Unknown pattern: " ++ pattern_name) ↔
      patternNames.contains pattern_name = false) ∧
    (patternNames.contains pattern_name = true →
      applyPattern pattern_name target =
        .ok { pattern := pattern_name, target := target }) := by
  refine ⟨⟨?_, ?_⟩, fun h => applyPattern_ok pattern_name target h⟩
  · intro h
    by_contra hc
    rw [Bool.not_eq_false] at hc
    rw [applyPattern_ok pattern_name target hc] at h
    exact Except.noConfusion h
  · intro h
    unfold applyPattern
    rw [h]
    rfl

/-- C7, witness: a catalog name returns normally with its fields, and a
non-catalog name raises the unknown-pattern error. -/
theorem claim7_witness :
    applyPattern "connection_retry" "db" =
      .ok { pattern := "connection_retry", target := "db" } ∧
    applyPattern "exponential_backoff" "db" =
      .error ("Unknown pattern: " ++ "exponential_backoff") :=
  ⟨(claim7_spec "connection_retry" "db").2 (by decide),
   (claim7_spec "exponential_backoff" "db").1.mpr (by decide)⟩

/-- C8: two failures with identical context produce traces with the same
step-name sequence and the same selected healing pattern: stage selection
is a pure function of the context. -/
theorem claim8_spec (f1 f2 : Failure) (h : f1.context = f2.context) :
    (handleFailure f1).map stepNames = (handleFailure f2).map stepNames ∧
    determineHealingPattern f1 = determineHealingPattern f2 := by
  have hpat : determineHealingPattern f1 = determineHealingPattern f2 := by
    unfold determineHealingPattern
    rw [h]
  exact ⟨by simp [stepNames_handleFailure, debug_cc_isSome, hpat], hpat⟩

/-- C8, witness: a runtime failure and a documentation failure sharing a
context produce identical step names and the same pattern. -/
theorem claim8_witness :
    (handleFailure failureRuntime).map stepNames =
      (handleFailure failureDocs).map stepNames ∧
    determineHealingPattern failureRuntime = determineHealingPattern failureDocs :=
  claim8_spec failureRuntime failureDocs (by decide)

/-- C9: an applicable checker with none of the `code`, `security`,
`performance` capabilities is assigned no checks and its overall result
is the empty conjunction, true; a change matched only by such checkers is
verified with confidence 1. -/
theorem claim9_spec :
    (∀ (a : Agent) (c : Change),
      a.capabilities.contains "code" = false →
      a.capabilities.contains "security" = false →
      a.capabilities.contains "performance" = false →
      determineChecks a c = [] ∧
        (executeVerification (createVerificationTask a c)).overall = true) ∧
    (∀ (v : Verifier) (c : Change),
      applicableTasks v c ≠ [] →
      (∀ a ∈ v.agents, canVerify a c = true →
        a.capabilities.contains "code" = false ∧
        a.capabilities.contains "security" = false ∧
        a.capabilities.contains "performance" = false) →
      (verifyChange v c).verified = true ∧ (verifyChange v c).confidence = 1) := by
  refine ⟨fun a c h1 h2 h3 => noCap_overall a c h1 h2 h3, ?_⟩
  intro v c hne hcaps
  have hall : ∀ r ∈ (applicableTasks v c).map executeVerification, r.overall = true := by
    intro r hr
    obtain ⟨t, ht, rfl⟩ := List.mem_map.mp hr
    unfold applicableTasks at ht
    obtain ⟨a, ha, rfl⟩ := List.mem_map.mp ht
    have hmem := List.mem_filter.mp ha
    obtain ⟨h1, h2, h3⟩ := hcaps a hmem.1 hmem.2
    exact (noCap_overall a c h1 h2 h3).2
  have hne2 : (applicableTasks v c).map executeVerification ≠ [] :=
    fun hnil => hne (List.map_eq_nil_iff.mp hnil)
  have hver : ((applicableTasks v c).map executeVerification).all
      (fun r => r.overall) = true := List.all_eq_true.mpr hall
  refine ⟨?_, ?_⟩
  · rw [verifyChange_def, aggregateResults_verified]
    exact hver
  · rw [verifyChange_def]
    refine (aggregate_verified_iff _ hne2).mp ?_
    rw [aggregateResults_verified]
    exact hver

/-- C9, witness: a lone `docs`-capability agent applicable to the `docs`
change yields a verified verdict with confidence 1. -/
theorem claim9_witness :
    (verifyChange docVerifier docsChange).verified = true ∧
    (verifyChange docVerifier docsChange).confidence = 1 :=
  claim9_spec.2 docVerifier docsChange (by decide) (by decide)

/-- C10: every pattern name the selector can return is a catalog key, so
the self-healing stage of a pipeline run never raises the unknown-pattern
error: `handle_failure` always returns normally. -/
theorem claim10_spec (f : Failure) :
    (∀ p, determineHealingPattern f = some p → patternNames.contains p = true) ∧
    (handleFailure f).isOk = true :=
  ⟨fun p hp => healingPattern_mem f p hp, handleFailure_isOk f⟩

/-- C10, witness: a failure selecting `circuit_breaker` has its pattern
in the catalog and its pipeline run returns normally. -/
theorem claim10_witness :
    patternNames.contains "circuit_breaker" = true ∧
    (handleFailure failureTimeout).isOk = true :=
  ⟨(claim10_spec failureTimeout).1 "circuit_breaker" (by decide),
   (claim10_spec failureTimeout).2⟩

end SelfImprovementProtocol
